import Mathlib

/-!
Verification of the micro terminal session lifecycle manager
(src/micro_terminal.py).

The Python module drives an external multiplexer (tmux) through
subprocess invocations.  The embedding below represents the external
world as an oracle (`Env`): resolved tool paths, the SHELL environment
variable, and the outcome of each external-process invocation.  Every
Python function of the module becomes a Lean function of the oracle,
returning the same value the Python function returns, paired with the
list of external invocations it performed.

Python string operations are embedded as structurally recursive
functions over `String.data` (`pyStrip` for `str.strip`, `pyLower`
for `str.lower`, `pySplitWS` for `str.split()` with no separator,
`pySplitLines` for `str.splitlines`, `pyJoin` for `str.join`,
`pyContains` for the `in` operator, `pyStartsWith` for
`str.startswith`, `pyDrop` for slicing `s[n:]`).
-/

/-- Embedding of Python `str.startswith`: character-level prefix test. -/
def pyStartsWith (s p : String) : Bool := p.data.isPrefixOf s.data

/-- Embedding of Python `len` on strings: number of characters. -/
def pyLen (s : String) : Nat := s.data.length

/-- Embedding of the Python slice `s[n:]` (drop the first `n` characters). -/
def pyDrop (s : String) (n : Nat) : String := ⟨s.data.drop n⟩

/-- Embedding of Python `str.lower` (ASCII case folding). -/
def pyLower (s : String) : String := ⟨s.data.map Char.toLower⟩

/-- Embedding of Python `str.strip()`: remove leading and trailing whitespace. -/
def pyStrip (s : String) : String :=
  ⟨((s.data.dropWhile Char.isWhitespace).reverse.dropWhile Char.isWhitespace).reverse⟩

/-- Embedding of Python falsiness of a string: empty means falsy. -/
def pyIsEmpty (s : String) : Bool := s.data.isEmpty

/-- Accumulator-based worker for `pySplitWS`. -/
def splitWSAux : List Char → List Char → List String
  | [], acc => if acc.isEmpty then [] else [⟨acc.reverse⟩]
  | c :: cs, acc =>
    if c.isWhitespace then
      if acc.isEmpty then splitWSAux cs [] else ⟨acc.reverse⟩ :: splitWSAux cs []
    else splitWSAux cs (c :: acc)

/-- Embedding of Python `str.split()` with no separator: split on runs of
whitespace, discarding empty tokens. -/
def pySplitWS (s : String) : List String := splitWSAux s.data []

/-- Accumulator-based worker for `pySplitLines`. -/
def splitLinesAux : List Char → List Char → List String
  | [], acc => if acc.isEmpty then [] else [⟨acc.reverse⟩]
  | c :: cs, acc =>
    if c = '\n' then ⟨acc.reverse⟩ :: splitLinesAux cs []
    else splitLinesAux cs (c :: acc)

/-- Embedding of Python `str.splitlines` (newline-separated; a trailing
newline does not produce a trailing empty line). -/
def pySplitLines (s : String) : List String := splitLinesAux s.data []

/-- Embedding of Python `sep.join(parts)`. -/
def pyJoin (sep : String) : List String → String
  | [] => ""
  | [x] => x
  | x :: xs => x ++ sep ++ pyJoin sep xs

/-- Worker for `pyContains`: does `pat` occur as a contiguous sublist? -/
def containsAux (pat : List Char) : List Char → Bool
  | [] => pat.isPrefixOf []
  | c :: cs => pat.isPrefixOf (c :: cs) || containsAux pat cs

/-- Embedding of the Python substring test `pat in s`. -/
def pyContains (s pat : String) : Bool := containsAux pat.data s.data

/-- The apostrophe character, as a string (used inside message templates). -/
def apos : String := String.singleton (Char.ofNat 39)

/-- Python truthiness filter for an optional string: `None` and the empty
string are falsy and collapse to `none`; any other value passes through. -/
def pyGet : Option String → Option String
  | none => none
  | some s => if s.data.isEmpty then none else some s

/-- Prefix applied to all micro terminal tmux session names
(source constant MICRO_TERM_PREFIX, line 20). -/
def MICRO_TERM_TAG : String := "aitx-micro-"

/-- Supported VM types for micro terminal deployment (source line 23). -/
def VM_TYPES : List String := ["local", "docker", "ssh"]

/-- Spec section 4.2: derive the namespaced session identifier from a short
name (inline in the source as the f-string at line 99 and elsewhere). -/
def toIdentifier (name : String) : String := MICRO_TERM_TAG ++ name

/-- Spec section 4.2: recover the short name from a namespaced identifier,
or `none` when the identifier lacks the namespace tag (inline in the source
as the list comprehension at lines 68-72). -/
def stripNamespace (ident : String) : Option String :=
  if pyStartsWith ident MICRO_TERM_TAG then
    some (pyDrop ident (pyLen MICRO_TERM_TAG))
  else none

/-- Outcome of a `subprocess.run` invocation: either the process completed
with an exit code and captured output streams, or the call raised
(timeout, server unreachable, or any other fault). -/
inductive RunOutcome
  | completed (returncode : Int) (stdout stderr : String)
  | raised (msg : String)
deriving DecidableEq

/-- Outcome of a `subprocess.Popen` launch: succeeded, the binary was not
found (`FileNotFoundError`), or some other fault was raised. -/
inductive PopenOutcome
  | ok
  | fileNotFound
  | raised (msg : String)
deriving DecidableEq

/-- One external-process invocation performed by a controller operation. -/
inductive ExtCall
  | hasSession (session : String)
  | listSessions
  | newSession (session : String) (startCmd : String)
  | killSession (session : String)
  | sendKeys (target : String) (command : String)
  | popen (args : List String)
deriving DecidableEq

/-- The external world the module runs against: resolved tool paths
(`shutil.which` results), the SHELL environment variable, and the outcome
of each external invocation the module can make. -/
structure Env where
  tmuxPath : Option String
  dockerPath : Option String
  sshPath : Option String
  shellEnv : Option String
  hasSession : String → RunOutcome
  listSessions : RunOutcome
  newSession : String → String → RunOutcome
  killSession : String → RunOutcome
  sendKeys : String → String → RunOutcome
  popen : List String → PopenOutcome

/-- Modelled: the text of `str(e)` for a `CalledProcessError` (the argv
repr is abstracted away; only the exit status is kept).  Used when the
captured stderr is empty, mirroring `e.stderr.strip() if e.stderr else
str(e)` in the source. -/
def cpeStr (rc : Int) : String :=
  "Command returned non-zero exit status " ++ toString rc ++ "."

/-- The diagnostic text the source computes in its `CalledProcessError`
handlers: the stripped stderr when non-empty, else `str(e)`. -/
def diagnosticOf (rc : Int) (stderr : String) : String :=
  if pyIsEmpty stderr then cpeStr rc else pyStrip stderr

/-- The substring test the source applies (lines 161 and 188) to classify a
failure as "session gone": the lowercased diagnostic contains
"session not found" or "no server running". -/
def sessionGoneDiag (err : String) : Bool :=
  pyContains (pyLower err) "session not found" ||
  pyContains (pyLower err) "no server running"

/-- Message: tmux missing (source lines 94, 150, 177, 205). -/
def tmuxMissingMsg : String := "tmux is not installed or not found in PATH."

/-- Message: unrecognized vm_type (source line 97). -/
def unknownVmTypeMsg (vm_type : String) : String :=
  "Unknown vm_type " ++ apos ++ vm_type ++ apos ++
  ". Choose from: local, docker, ssh."

/-- Message: session already exists (source line 102). -/
def alreadyExistsMsg (name : String) : String :=
  "Micro terminal " ++ apos ++ name ++ apos ++ " already exists."

/-- Message: docker vm_type without a target (source line 107). -/
def dockerTargetMsg : String :=
  "docker vm_type requires a container name/ID (vm_target)."

/-- Message: docker binary missing (source line 110). -/
def dockerMissingMsg : String :=
  "Docker is not installed or not found in PATH."

/-- Message: ssh vm_type without a target (source line 119). -/
def sshTargetMsg : String :=
  "ssh vm_type requires a user@host target (vm_target)."

/-- Message: ssh binary missing (source line 122). -/
def sshMissingMsg : String :=
  "SSH client is not installed or not found in PATH."

/-- Message: creation succeeded (source line 133). -/
def createdMsg (name : String) : String :=
  "Micro terminal " ++ apos ++ name ++ apos ++ " created successfully."

/-- Message: creation failed with a diagnostic (source line 136). -/
def createFailedMsg (err : String) : String :=
  "Failed to create micro terminal: " ++ err

/-- Message: unexpected fault during creation (source line 138). -/
def createUnexpectedMsg (e : String) : String :=
  "Unexpected error creating micro terminal: " ++ e

/-- Message: destroy succeeded (source line 158). -/
def destroyedMsg (name : String) : String :=
  "Micro terminal " ++ apos ++ name ++ apos ++ " destroyed."

/-- Message: destroy target not found (source line 162). -/
def destroyNotFoundMsg (name : String) : String :=
  "Micro terminal " ++ apos ++ name ++ apos ++ " not found."

/-- Message: destroy failed with a diagnostic (source line 163). -/
def destroyFailedMsg (err : String) : String :=
  "Failed to destroy micro terminal: " ++ err

/-- Message: unexpected fault during destroy (source line 165). -/
def destroyUnexpectedMsg (e : String) : String :=
  "Unexpected error destroying micro terminal: " ++ e

/-- Message: send succeeded (source line 185). -/
def sentMsg (name : String) : String :=
  "Command sent to micro terminal " ++ apos ++ name ++ apos ++ "."

/-- Message: send target not found (source line 189). -/
def sendNotFoundMsg (name : String) : String :=
  "Micro terminal " ++ apos ++ name ++ apos ++ " not found or has been closed."

/-- Message: send failed with a diagnostic (source line 190). -/
def sendFailedMsg (err : String) : String :=
  "Failed to send command: " ++ err

/-- Message: unexpected fault during send (source line 192). -/
def sendUnexpectedMsg (e : String) : String :=
  "Unexpected error sending command: " ++ e

/-- Message: no visual terminal path configured (source line 207). -/
def noVisualMsg : String := "No visual terminal application path provided."

/-- Message: attach target not found (source line 211). -/
def attachNotFoundMsg (name : String) : String :=
  "Micro terminal " ++ apos ++ name ++ apos ++ " not found."

/-- Message: attach succeeded (source line 221). -/
def openedMsg (name : String) : String :=
  "Opened micro terminal " ++ apos ++ name ++ apos ++ " in a new window."

/-- Message: visual terminal binary not found (source line 223). -/
def visualNotFoundMsg (path : String) : String :=
  "Visual terminal " ++ apos ++ path ++ apos ++ " not found."

/-- Message: unexpected fault opening the window (source line 225). -/
def attachFailedMsg (e : String) : String :=
  "Failed to open micro terminal window: " ++ e

/-- Embedding of `_session_exists` (source lines 41-50): runs
`tmux has-session -t session_name` with a 3s timeout; true exactly when
the invocation completes with exit code 0; any raised fault yields false. -/
def _session_exists (env : Env) (session_name : String) : Bool × List ExtCall :=
  ((match env.hasSession session_name with
    | .completed rc _ _ => rc == 0
    | .raised _ => false),
   [.hasSession session_name])

/-- Embedding of `list_micro_terminals` (source lines 53-74): lists server
sessions, keeps the lines starting with the namespace tag, strips the tag,
and returns them in order; any failure yields the empty list. -/
def list_micro_terminals (env : Env) : List String × List ExtCall :=
  match pyGet env.tmuxPath with
  | none => ([], [])
  | some _ =>
    match env.listSessions with
    | .completed rc out _ =>
      if (rc == 0) = false then ([], [.listSessions])
      else
        (((pySplitLines (pyStrip out)).filter
            (fun s => pyStartsWith s MICRO_TERM_TAG)).map
            (fun s => pyDrop s (pyLen MICRO_TERM_TAG)),
         [.listSessions])
    | .raised _ => ([], [.listSessions])

/-- Embedding of the start-command construction inside
`create_micro_terminal` (source lines 104-126): docker and ssh require a
truthy target and their tool; local uses SHELL with a /bin/bash fallback. -/
def build_start_cmd (env : Env) (vm_type : String) (vm_target : Option String) :
    Except String String :=
  if vm_type = "docker" then
    match pyGet vm_target with
    | none => .error dockerTargetMsg
    | some t =>
      match pyGet env.dockerPath with
      | none => .error dockerMissingMsg
      | some docker =>
        .ok (docker ++ " exec -it " ++ t ++ " /bin/sh -c " ++ apos ++
             "command -v bash >/dev/null 2>&1 && exec bash || exec sh" ++ apos)
  else if vm_type = "ssh" then
    match pyGet vm_target with
    | none => .error sshTargetMsg
    | some t =>
      match pyGet env.sshPath with
      | none => .error sshMissingMsg
      | some ssh => .ok (ssh ++ " " ++ t)
  else .ok (env.shellEnv.getD "/bin/bash")

/-- Embedding of `create_micro_terminal` (source lines 77-138).  Returns
the `(success, session_name | None, message)` triple together with the
external invocations performed. -/
def create_micro_terminal (env : Env) (name : String) (vm_type : String)
    (vm_target : Option String) :
    (Bool × Option String × String) × List ExtCall :=
  match pyGet env.tmuxPath with
  | none => ((false, none, tmuxMissingMsg), [])
  | some _ =>
    if (VM_TYPES.contains vm_type) = false then
      ((false, none, unknownVmTypeMsg vm_type), [])
    else
      let session_name := MICRO_TERM_TAG ++ name
      if (_session_exists env session_name).1 then
        ((false, some session_name, alreadyExistsMsg name),
         [.hasSession session_name])
      else
        match build_start_cmd env vm_type vm_target with
        | .error msg => ((false, none, msg), [.hasSession session_name])
        | .ok start_cmd =>
          match env.newSession session_name start_cmd with
          | .completed rc _ stderr =>
            if rc == 0 then
              ((true, some session_name, createdMsg name),
               [.hasSession session_name, .newSession session_name start_cmd])
            else
              ((false, none, createFailedMsg (diagnosticOf rc stderr)),
               [.hasSession session_name, .newSession session_name start_cmd])
          | .raised m =>
            ((false, none, createUnexpectedMsg m),
             [.hasSession session_name, .newSession session_name start_cmd])

/-- Embedding of `destroy_micro_terminal` (source lines 141-165). -/
def destroy_micro_terminal (env : Env) (name : String) :
    (Bool × String) × List ExtCall :=
  match pyGet env.tmuxPath with
  | none => ((false, tmuxMissingMsg), [])
  | some _ =>
    let session_name := MICRO_TERM_TAG ++ name
    match env.killSession session_name with
    | .completed rc _ stderr =>
      if rc == 0 then ((true, destroyedMsg name), [.killSession session_name])
      else
        let err := diagnosticOf rc stderr
        if sessionGoneDiag err then
          ((false, destroyNotFoundMsg name), [.killSession session_name])
        else
          ((false, destroyFailedMsg err), [.killSession session_name])
    | .raised m =>
      ((false, destroyUnexpectedMsg m), [.killSession session_name])

/-- Embedding of `send_to_micro_terminal` (source lines 168-192). -/
def send_to_micro_terminal (env : Env) (name : String) (command : String) :
    (Bool × String) × List ExtCall :=
  match pyGet env.tmuxPath with
  | none => ((false, tmuxMissingMsg), [])
  | some _ =>
    let session_name := MICRO_TERM_TAG ++ name
    match env.sendKeys (session_name ++ ":0.0") command with
    | .completed rc _ stderr =>
      if rc == 0 then
        ((true, sentMsg name), [.sendKeys (session_name ++ ":0.0") command])
      else
        let err := diagnosticOf rc stderr
        if sessionGoneDiag err then
          ((false, sendNotFoundMsg name),
           [.sendKeys (session_name ++ ":0.0") command])
        else
          ((false, sendFailedMsg err),
           [.sendKeys (session_name ++ ":0.0") command])
    | .raised m =>
      ((false, sendUnexpectedMsg m), [.sendKeys (session_name ++ ":0.0") command])

/-- Characters `shlex.quote` considers safe (ASCII approximation of the
`_find_unsafe` regex: word characters plus at-sign, percent, plus, equals,
colon, comma, dot, slash and dash). -/
def shlexSafeChar (c : Char) : Bool :=
  c.isAlphanum || c = '_' || c = '@' || c = '%' || c = '+' || c = '=' ||
  c = ':' || c = ',' || c = '.' || c = '/' || c = '-'

/-- Embedding of `shlex.quote`. -/
def shlexQuote (s : String) : String :=
  if pyIsEmpty s then apos ++ apos
  else if s.data.all shlexSafeChar then s
  else apos ++ ⟨s.data.flatMap (fun c =>
    if c = Char.ofNat 39 then (apos ++ "\"" ++ apos ++ "\"" ++ apos).data
    else [c])⟩ ++ apos

/-- Embedding of `attach_micro_terminal` (source lines 195-225). -/
def attach_micro_terminal (env : Env) (name : String)
    (visual_terminal_path : String) : (Bool × String) × List ExtCall :=
  match pyGet env.tmuxPath with
  | none => ((false, tmuxMissingMsg), [])
  | some tmux =>
    if pyIsEmpty visual_terminal_path then ((false, noVisualMsg), [])
    else
      let session_name := MICRO_TERM_TAG ++ name
      if (_session_exists env session_name).1 = false then
        ((false, attachNotFoundMsg name), [.hasSession session_name])
      else
        let tmux_cmd := shlexQuote tmux ++ " attach-session -t " ++
          shlexQuote session_name
        let term_args := [visual_terminal_path,
          "-T", "Micro Terminal: " ++ name,
          "-e", "bash -c \"" ++ tmux_cmd ++ "\""]
        match env.popen term_args with
        | .ok =>
          ((true, openedMsg name), [.hasSession session_name, .popen term_args])
        | .fileNotFound =>
          ((false, visualNotFoundMsg visual_terminal_path),
           [.hasSession session_name, .popen term_args])
        | .raised m =>
          ((false, attachFailedMsg m), [.hasSession session_name, .popen term_args])

/-- Result of the interactive manager loop: return to the main menu or
exit the application (source lines 238-240). -/
inductive LoopResult
  | back
  | quit
deriving DecidableEq

/-- One Lifecycle Controller invocation issued by the Dispatcher, recorded
in order. -/
inductive Call
  | listCall
  | createCall (name vm_type : String) (vm_target : Option String)
  | attachCall (name : String)
  | sendCall (name command : String)
  | destroyCall (name : String)
deriving DecidableEq

/-- Where the Dispatcher will read its next input line: at the top-level
command prompt, at the "open in a window now?" confirmation that follows a
successful create (source lines 306-312), or at the destroy yes/no
confirmation (source lines 340-346). -/
inductive DState
  | atPrompt
  | openConfirm (name : String)
  | destroyConfirm (name : String)
deriving DecidableEq

/-- Embedding of the `run_micro_terminal_manager` read-eval loop (source
lines 228-357).  The operator input is a list of events, one per `input()`
call: `some line` is a line read, `none` is an interruption
(KeyboardInterrupt or EOFError); an exhausted event list reads as
end-of-input.  Each recursive step consumes exactly one event; the nested
confirmation prompts of the source are carried as the `DState` parameter.
Returns the loop result together with the ordered Lifecycle Controller
calls issued (`Call.listCall` marks the list refresh at the top of each
iteration). -/
def runLoopAux (env : Env) (visual_terminal_path : String) :
    DState → List (Option String) → LoopResult × List Call
  | .atPrompt, [] => (.quit, [.listCall])
  | .openConfirm _, [] => (.quit, [.listCall])
  | .destroyConfirm _, [] => (.quit, [.listCall])
  | .atPrompt, none :: _ => (.quit, [.listCall])
  | .openConfirm _, none :: rest =>
    runLoopAux env visual_terminal_path .atPrompt rest
  | .destroyConfirm _, none :: rest =>
    runLoopAux env visual_terminal_path .atPrompt rest
  | .openConfirm name, some ans :: rest =>
    let choice := pyLower (pyStrip ans)
    let r := runLoopAux env visual_terminal_path .atPrompt rest
    if choice = "y" ∨ choice = "yes" then (r.1, .attachCall name :: r.2) else r
  | .destroyConfirm name, some ans :: rest =>
    let confirm := pyLower (pyStrip ans)
    let r := runLoopAux env visual_terminal_path .atPrompt rest
    if confirm = "y" ∨ confirm = "yes" then (r.1, .destroyCall name :: r.2) else r
  | .atPrompt, some raw :: rest =>
    let user_input := pyStrip raw
    if pyIsEmpty user_input then
      let r := runLoopAux env visual_terminal_path .atPrompt rest
      (r.1, .listCall :: r.2)
    else
      let parts := pySplitWS user_input
      let cmd := pyLower (parts.headD "")
      if cmd = "quit" ∨ cmd = "exit" then (.quit, [.listCall])
      else if cmd = "back" then (.back, [.listCall])
      else if cmd = "list" then
        let r := runLoopAux env visual_terminal_path .atPrompt rest
        (r.1, .listCall :: r.2)
      else if cmd = "new" then
        if parts.length < 2 then
          let r := runLoopAux env visual_terminal_path .atPrompt rest
          (r.1, .listCall :: r.2)
        else if parts.length = 3 then
          let r := runLoopAux env visual_terminal_path .atPrompt rest
          (r.1, .listCall :: r.2)
        else
          let term_name := parts.getD 1 ""
          let vm_type := if 4 ≤ parts.length then pyLower (parts.getD 2 "") else "local"
          let vm_target := if 4 ≤ parts.length then some (parts.getD 3 "") else none
          let res := (create_micro_terminal env term_name vm_type vm_target).1
          if res.1 then
            let r := runLoopAux env visual_terminal_path (.openConfirm term_name) rest
            (r.1, .listCall :: .createCall term_name vm_type vm_target :: r.2)
          else
            let r := runLoopAux env visual_terminal_path .atPrompt rest
            (r.1, .listCall :: .createCall term_name vm_type vm_target :: r.2)
      else if cmd = "open" then
        if parts.length < 2 then
          let r := runLoopAux env visual_terminal_path .atPrompt rest
          (r.1, .listCall :: r.2)
        else
          let r := runLoopAux env visual_terminal_path .atPrompt rest
          (r.1, .listCall :: .attachCall (parts.getD 1 "") :: r.2)
      else if cmd = "send" then
        if parts.length < 3 then
          let r := runLoopAux env visual_terminal_path .atPrompt rest
          (r.1, .listCall :: r.2)
        else
          let term_name := parts.getD 1 ""
          let command := pyJoin " " (parts.drop 2)
          let r := runLoopAux env visual_terminal_path .atPrompt rest
          (r.1, .listCall :: .sendCall term_name command :: r.2)
      else if cmd = "destroy" then
        if parts.length < 2 then
          let r := runLoopAux env visual_terminal_path .atPrompt rest
          (r.1, .listCall :: r.2)
        else
          let r := runLoopAux env visual_terminal_path
            (.destroyConfirm (parts.getD 1 "")) rest
          (r.1, .listCall :: r.2)
      else
        let r := runLoopAux env visual_terminal_path .atPrompt rest
        (r.1, .listCall :: r.2)

/-- The manager loop started at the top-level prompt. -/
def run_micro_terminal_manager (env : Env) (visual_terminal_path : String)
    (events : List (Option String)) : LoopResult × List Call :=
  runLoopAux env visual_terminal_path .atPrompt events

/-- Modelled from the spec: the external multiplexer server (sections 3
and 6), which this repository invokes but does not implement.  The server
holds the list of live sessions; "has-session" and "kill-session" exit 0
exactly when the queried session is live, "list-sessions" prints one
session name per line, and "new-session" succeeds. -/
def serverEnv (sessions : List String) : Env where
  tmuxPath := some "/usr/bin/tmux"
  dockerPath := none
  sshPath := none
  shellEnv := none
  hasSession := fun s => .completed (if sessions.contains s then 0 else 1) "" ""
  listSessions := .completed 0 (pyJoin "\n" sessions) ""
  newSession := fun _ _ => .completed 0 "" ""
  killSession := fun s =>
    .completed (if sessions.contains s then 0 else 1) ""
      (if sessions.contains s then "" else "session not found")
  sendKeys := fun _ _ => .completed 0 "" ""
  popen := fun _ => .ok

/-- Modelled from the spec: two consecutive `create(name, Local)` calls
against the multiplexer server, where (per section 3) a successful
"new-session" makes the session live before the second call runs. -/
def createTwice (sessions : List String) (name : String) :
    (Bool × Option String × String) × (Bool × Option String × String) :=
  let r1 := (create_micro_terminal (serverEnv sessions) name "local" none).1
  let sessions2 := if r1.1 then (MICRO_TERM_TAG ++ name) :: sessions else sessions
  let r2 := (create_micro_terminal (serverEnv sessions2) name "local" none).1
  (r1, r2)

/-- An oracle in which every external-process invocation raises (timeout,
unreachable server, or another internal fault), while every tool resolves. -/
def raisedEnv : Env where
  tmuxPath := some "/usr/bin/tmux"
  dockerPath := some "/usr/bin/docker"
  sshPath := some "/usr/bin/ssh"
  shellEnv := none
  hasSession := fun _ => .raised "boom"
  listSessions := .raised "boom"
  newSession := fun _ _ => .raised "boom"
  killSession := fun _ => .raised "boom"
  sendKeys := fun _ _ => .raised "boom"
  popen := fun _ => .raised "boom"

/-- An oracle in which the queried session exists but every non-query
invocation fails: kill-session reports a missing session, send-keys fails
with an unrelated diagnostic, and the window launch raises. -/
def failEnv : Env where
  tmuxPath := some "/usr/bin/tmux"
  dockerPath := none
  sshPath := none
  shellEnv := none
  hasSession := fun _ => .completed 0 "" ""
  listSessions := .completed 0 "" ""
  newSession := fun _ _ => .completed 0 "" ""
  killSession := fun _ => .completed 1 "" "session not found"
  sendKeys := fun _ _ => .completed 1 "" "disk full"
  popen := fun _ => .raised "boom"

/-- Strings whose first characters differ are different strings. -/
theorem ne_of_head_ne (s t : String) (c d : Char)
    (hs : s.data.head? = some c) (ht : t.data.head? = some d)
    (hcd : c ≠ d) : s ≠ t := by
  intro he
  rw [he, ht] at hs
  exact hcd (Option.some.inj hs).symm

/-- The first character of an appended string is that of its left part. -/
theorem append_head (a b : String) (c : Char) (h : a.data.head? = some c) :
    (a ++ b).data.head? = some c := by
  rw [String.data_append]
  cases hd : a.data with
  | nil => rw [hd] at h; cases h
  | cons x xs => rw [hd] at h; simpa using h

/-- The AlreadyExists message always starts with the letter M. -/
theorem alreadyExistsMsg_head (name : String) :
    (alreadyExistsMsg name).data.head? = some 'M' :=
  append_head _ _ _ (append_head _ _ _ (append_head _ _ _ (append_head _ _ _ rfl)))

/-- C2: prefixing a name with the namespace tag and then stripping the tag
returns the original name, and `toIdentifier` is injective on names that
do not themselves contain the namespace tag. -/
theorem toIdentifier_roundtrip_and_injective :
    (∀ n : String, stripNamespace (toIdentifier n) = some n) ∧
    (∀ a b : String, pyContains a MICRO_TERM_TAG = false →
      pyContains b MICRO_TERM_TAG = false →
      toIdentifier a = toIdentifier b → a = b) := by
  constructor
  · intro n
    have h1 : pyStartsWith (toIdentifier n) MICRO_TERM_TAG = true := by
      simp [pyStartsWith, toIdentifier, String.data_append,
        List.isPrefixOf_iff_prefix]
    have h2 : pyDrop (toIdentifier n) (pyLen MICRO_TERM_TAG) = n := by
      have hd : (toIdentifier n).data = MICRO_TERM_TAG.data ++ n.data :=
        String.data_append _ _
      have hl : pyLen MICRO_TERM_TAG = MICRO_TERM_TAG.data.length := rfl
      simp [pyDrop, hd, hl, List.drop_left]
    simp [stripNamespace, h1, h2]
  · intro a b _ _ h
    apply String.ext
    have hd := congrArg String.data h
    rw [toIdentifier, toIdentifier, String.data_append, String.data_append] at hd
    exact List.append_cancel_left hd

/-- Closed instance of the C2 theorem at a concrete name. -/
theorem toIdentifier_roundtrip_and_injective_witness :
    stripNamespace (toIdentifier "alpha") = some "alpha" ∧
    ("alpha" : String) = "alpha" :=
  ⟨toIdentifier_roundtrip_and_injective.1 "alpha",
   toIdentifier_roundtrip_and_injective.2 "alpha" "alpha"
     (by decide) (by decide) rfl⟩

/-- The filtered-and-stripped listing equals filtering through
`stripNamespace`. -/
theorem filter_map_eq_filterMap_strip (L : List String) :
    (L.filter (fun s => pyStartsWith s MICRO_TERM_TAG)).map
      (fun s => pyDrop s (pyLen MICRO_TERM_TAG)) =
    L.filterMap stripNamespace := by
  induction L with
  | nil => rfl
  | cons x xs ih =>
    by_cases h : pyStartsWith x MICRO_TERM_TAG = true
    · simp [List.filter_cons, List.filterMap_cons, h, stripNamespace, ih]
    · have h2 : pyStartsWith x MICRO_TERM_TAG = false := by
        simpa using h
      simp [List.filter_cons, List.filterMap_cons, h2, stripNamespace, ih]

/-- C4: listing strips the namespace tag from exactly the tagged server
lines, preserving server order, and any query failure (missing tool,
non-zero exit, raised fault) yields the empty sequence. -/
theorem list_reports_only_namespaced :
    (∀ ident : String, pyStartsWith ident MICRO_TERM_TAG = false →
      stripNamespace ident = none) ∧
    (∀ env out err, pyGet env.tmuxPath ≠ none →
      env.listSessions = .completed 0 out err →
      (list_micro_terminals env).1 =
        (pySplitLines (pyStrip out)).filterMap stripNamespace) ∧
    (∀ env, pyGet env.tmuxPath = none → (list_micro_terminals env).1 = []) ∧
    (∀ env rc out err, env.listSessions = .completed rc out err →
      (rc == 0) = false → (list_micro_terminals env).1 = []) ∧
    (∀ env m, env.listSessions = .raised m → (list_micro_terminals env).1 = []) := by
  refine ⟨?_, ?_, ?_, ?_, ?_⟩
  · intro ident h
    simp [stripNamespace, h]
  · intro env out err htm hls
    cases hp : pyGet env.tmuxPath with
    | none => exact absurd hp htm
    | some t =>
      simp [list_micro_terminals, hp, hls, filter_map_eq_filterMap_strip]
  · intro env h
    simp [list_micro_terminals, h]
  · intro env rc out err hls hrc
    cases hp : pyGet env.tmuxPath with
    | none => simp [list_micro_terminals, hp]
    | some t => simp [list_micro_terminals, hp, hls, hrc]
  · intro env m hls
    cases hp : pyGet env.tmuxPath with
    | none => simp [list_micro_terminals, hp]
    | some t => simp [list_micro_terminals, hp, hls]

/-- Closed instance of the C4 theorem on a concrete server listing and on
a raising oracle. -/
theorem list_reports_only_namespaced_witness :
    stripNamespace "other" = none ∧
    (list_micro_terminals (serverEnv ["aitx-micro-a", "other", "aitx-micro-b"])).1 =
      (pySplitLines (pyStrip (pyJoin "\n" ["aitx-micro-a", "other", "aitx-micro-b"]))).filterMap
        stripNamespace ∧
    (list_micro_terminals raisedEnv).1 = [] :=
  ⟨list_reports_only_namespaced.1 "other" (by decide),
   (list_reports_only_namespaced.2.1 (serverEnv ["aitx-micro-a", "other", "aitx-micro-b"])
     (pyJoin "\n" ["aitx-micro-a", "other", "aitx-micro-b"]) "" (by decide) rfl),
   list_reports_only_namespaced.2.2.2.2 raisedEnv "boom" rfl⟩

/-- C5: the liveness check succeeds exactly when the external query
completes with exit status zero; any raised fault yields false rather
than an error. -/
theorem session_exists_success_iff :
    (∀ env sn, (_session_exists env sn).1 = true ↔
      ∃ out err, env.hasSession sn = .completed 0 out err) ∧
    (∀ env sn m, env.hasSession sn = .raised m →
      (_session_exists env sn).1 = false) := by
  constructor
  · intro env sn
    cases h : env.hasSession sn with
    | completed rc out err => simp [_session_exists, h]
    | raised m => simp [_session_exists, h]
  · intro env sn m h
    simp [_session_exists, h]

/-- Closed instance of the C5 theorem: a live session on the server model,
and a raising oracle. -/
theorem session_exists_success_iff_witness :
    ((_session_exists (serverEnv ["aitx-micro-a"]) "aitx-micro-a").1 = true ↔
      ∃ out err, (serverEnv ["aitx-micro-a"]).hasSession "aitx-micro-a" =
        .completed 0 out err) ∧
    (_session_exists raisedEnv "aitx-micro-a").1 = false :=
  ⟨session_exists_success_iff.1 (serverEnv ["aitx-micro-a"]) "aitx-micro-a",
   session_exists_success_iff.2 raisedEnv "aitx-micro-a" "boom" rfl⟩

/-- A fresh local create against the modelled server succeeds. -/
theorem serverEnv_create_local_fresh (S : List String) (name : String)
    (h : S.contains (MICRO_TERM_TAG ++ name) = false) :
    (create_micro_terminal (serverEnv S) name "local" none).1 =
      (true, some (MICRO_TERM_TAG ++ name), createdMsg name) := by
  have hmem : MICRO_TERM_TAG ++ name ∉ S := by simpa using h
  have e1 : pyGet (serverEnv S).tmuxPath = some "/usr/bin/tmux" := rfl
  have e2 : ("local" : String) ∈ VM_TYPES := by decide
  have e3 : (_session_exists (serverEnv S) (MICRO_TERM_TAG ++ name)).1 = false := by
    simp [_session_exists, serverEnv, hmem]
  have e4 : build_start_cmd (serverEnv S) "local" none = .ok "/bin/bash" := rfl
  have e5 : (serverEnv S).newSession (MICRO_TERM_TAG ++ name) "/bin/bash" =
      .completed 0 "" "" := rfl
  simp [create_micro_terminal, e1, e2, e3, e4, e5]

/-- C1: when the namespaced identifier already exists on the server,
create fails with the AlreadyExists message (the existence check is the
sole guard); two consecutive local creates of a fresh name yield success
and then the AlreadyExists failure. -/
theorem create_already_exists_guard :
    (∀ env name vm_type vm_target, pyGet env.tmuxPath ≠ none →
      VM_TYPES.contains vm_type = true →
      (_session_exists env (MICRO_TERM_TAG ++ name)).1 = true →
      (create_micro_terminal env name vm_type vm_target).1 =
        (false, some (MICRO_TERM_TAG ++ name), alreadyExistsMsg name)) ∧
    (∀ sessions name, sessions.contains (MICRO_TERM_TAG ++ name) = false →
      createTwice sessions name =
        ((true, some (MICRO_TERM_TAG ++ name), createdMsg name),
         (false, some (MICRO_TERM_TAG ++ name), alreadyExistsMsg name))) := by
  have general : ∀ env name vm_type vm_target, pyGet env.tmuxPath ≠ none →
      VM_TYPES.contains vm_type = true →
      (_session_exists env (MICRO_TERM_TAG ++ name)).1 = true →
      (create_micro_terminal env name vm_type vm_target).1 =
        (false, some (MICRO_TERM_TAG ++ name), alreadyExistsMsg name) := by
    intro env name vm_type vm_target htm hvt hex
    cases hp : pyGet env.tmuxPath with
    | none => exact absurd hp htm
    | some t =>
      have hvt2 : vm_type ∈ VM_TYPES := by simpa using hvt
      simp [create_micro_terminal, hp, hvt2, hex]
  refine ⟨general, ?_⟩
  intro sessions name h
  have r1 := serverEnv_create_local_fresh sessions name h
  have hex2 : (_session_exists (serverEnv ((MICRO_TERM_TAG ++ name) :: sessions))
      (MICRO_TERM_TAG ++ name)).1 = true := by
    simp [_session_exists, serverEnv, List.contains_cons]
  have r2 := general (serverEnv ((MICRO_TERM_TAG ++ name) :: sessions)) name
    "local" none (by simp [serverEnv, pyGet]) (by decide) hex2
  simp [createTwice, r1, r2]

/-- Closed instance of the C1 theorem: a live session blocks create, and
two consecutive creates of a fresh name succeed then fail. -/
theorem create_already_exists_guard_witness :
    (create_micro_terminal (serverEnv [MICRO_TERM_TAG ++ "w"]) "w" "local" none).1 =
      (false, some (MICRO_TERM_TAG ++ "w"), alreadyExistsMsg "w") ∧
    createTwice [] "demo" =
      ((true, some (MICRO_TERM_TAG ++ "demo"), createdMsg "demo"),
       (false, some (MICRO_TERM_TAG ++ "demo"), alreadyExistsMsg "demo")) :=
  ⟨create_already_exists_guard.1 (serverEnv [MICRO_TERM_TAG ++ "w"]) "w" "local"
     none (by decide) (by decide) (by decide),
   create_already_exists_guard.2 [] "demo" (by decide)⟩

/-- C3 counterexample: at a concrete oracle with tmux present and the
session absent, create("x", docker, "") does return the MissingTarget
failure, but only after invoking an external process (the tmux
has-session liveness probe), so the invocation trace is not empty. -/
theorem create_empty_target_counterexample :
    (create_micro_terminal (serverEnv []) "x" "docker" (some "")).1 =
      (false, none, dockerTargetMsg) ∧
    (create_micro_terminal (serverEnv []) "x" "docker" (some "")).2 =
      [ExtCall.hasSession (MICRO_TERM_TAG ++ "x")] := by
  constructor
  · decide
  · decide

/-- C3 amended: when the existence probe reports the session absent,
create("x", docker, "") returns the MissingTarget failure, and the only
external invocation performed is that liveness probe (in particular the
new-session invocation never happens). -/
theorem create_empty_target_missing_target :
    ∀ env, pyGet env.tmuxPath ≠ none →
      (_session_exists env (MICRO_TERM_TAG ++ "x")).1 = false →
      create_micro_terminal env "x" "docker" (some "") =
        ((false, none, dockerTargetMsg),
         [ExtCall.hasSession (MICRO_TERM_TAG ++ "x")]) := by
  intro env htm hex
  cases hp : pyGet env.tmuxPath with
  | none => exact absurd hp htm
  | some t =>
    have hb : build_start_cmd env "docker" (some "") = .error dockerTargetMsg := rfl
    have hvt : ("docker" : String) ∈ VM_TYPES := by decide
    simp [create_micro_terminal, hp, hvt, hex, hb]

/-- Closed instance of the C3 amended theorem. -/
theorem create_empty_target_missing_target_witness :
    create_micro_terminal (serverEnv []) "x" "docker" (some "") =
      ((false, none, dockerTargetMsg),
       [ExtCall.hasSession (MICRO_TERM_TAG ++ "x")]) :=
  create_empty_target_missing_target (serverEnv []) (by decide) (by decide)

/-- C6: on a non-zero exit of kill-session or send-keys, the operation
reports NotFound exactly when the diagnostic text contains
"session not found" or "no server running" case-insensitively, and
otherwise reports a generic failure carrying the diagnostic text; the two
reports are distinct messages. -/
theorem destroy_send_classify_not_found :
    ∀ env name command rc out stderr, pyGet env.tmuxPath ≠ none →
      (rc == 0) = false →
      (env.killSession (MICRO_TERM_TAG ++ name) = .completed rc out stderr →
        (destroy_micro_terminal env name).1 =
          (false,
           if sessionGoneDiag (diagnosticOf rc stderr) then destroyNotFoundMsg name
           else destroyFailedMsg (diagnosticOf rc stderr))) ∧
      (env.sendKeys ((MICRO_TERM_TAG ++ name) ++ ":0.0") command =
          .completed rc out stderr →
        (send_to_micro_terminal env name command).1 =
          (false,
           if sessionGoneDiag (diagnosticOf rc stderr) then sendNotFoundMsg name
           else sendFailedMsg (diagnosticOf rc stderr))) ∧
      destroyNotFoundMsg name ≠ destroyFailedMsg (diagnosticOf rc stderr) ∧
      sendNotFoundMsg name ≠ sendFailedMsg (diagnosticOf rc stderr) := by
  intro env name command rc out stderr htm hrc
  have hnf : (destroyNotFoundMsg name).data.head? = some 'M' :=
    append_head _ _ _ (append_head _ _ _ (append_head _ _ _ (append_head _ _ _ rfl)))
  have hsf : (sendNotFoundMsg name).data.head? = some 'M' :=
    append_head _ _ _ (append_head _ _ _ (append_head _ _ _ (append_head _ _ _ rfl)))
  refine ⟨?_, ?_, ?_, ?_⟩
  · intro hk
    cases hp : pyGet env.tmuxPath with
    | none => exact absurd hp htm
    | some t =>
      simp [destroy_micro_terminal, hp, hk, hrc]
      split <;> simp
  · intro hs
    cases hp : pyGet env.tmuxPath with
    | none => exact absurd hp htm
    | some t =>
      simp [send_to_micro_terminal, hp, hs, hrc]
      split <;> simp
  · exact ne_of_head_ne _ _ 'M' 'F' hnf (append_head _ _ _ rfl) (by decide)
  · exact ne_of_head_ne _ _ 'M' 'F' hsf (append_head _ _ _ rfl) (by decide)

/-- Closed instance of the C6 theorem: a "session not found" diagnostic
classifies as NotFound, an unrelated diagnostic as a generic failure. -/
theorem destroy_send_classify_not_found_witness :
    (destroy_micro_terminal failEnv "x").1 = (false, destroyNotFoundMsg "x") ∧
    (send_to_micro_terminal failEnv "x" "ls").1 =
      (false, sendFailedMsg "disk full") := by
  have h1 := (destroy_send_classify_not_found failEnv "x" "ls" 1 "" "session not found"
    (by decide) (by decide)).1 rfl
  have h2 := ((destroy_send_classify_not_found failEnv "x" "ls" 1 "" "disk full"
    (by decide) (by decide)).2.1) rfl
  constructor
  · rw [h1]; decide
  · rw [h2]; decide

/-- An oracle in which the session exists but launching the visual
terminal window raises an unexpected fault. -/
def attachRaisedEnv : Env where
  tmuxPath := some "/usr/bin/tmux"
  dockerPath := none
  sshPath := none
  shellEnv := none
  hasSession := fun _ => .completed 0 "" ""
  listSessions := .completed 0 "" ""
  newSession := fun _ _ => .completed 0 "" ""
  killSession := fun _ => .completed 0 "" ""
  sendKeys := fun _ _ => .completed 0 "" ""
  popen := fun _ => .raised "boom"

/-- C7: every Lifecycle Controller operation returns a success flag plus a
message value; a raised fault (timeout or unexpected internal error)
during the external invocation is normalized into a returned failure
value rather than escaping. -/
theorem operations_catch_faults :
    (∀ env name vm_type vm_target cmdline m, pyGet env.tmuxPath ≠ none →
      VM_TYPES.contains vm_type = true →
      (_session_exists env (MICRO_TERM_TAG ++ name)).1 = false →
      build_start_cmd env vm_type vm_target = .ok cmdline →
      env.newSession (MICRO_TERM_TAG ++ name) cmdline = .raised m →
      (create_micro_terminal env name vm_type vm_target).1 =
        (false, none, createUnexpectedMsg m)) ∧
    (∀ env name m, pyGet env.tmuxPath ≠ none →
      env.killSession (MICRO_TERM_TAG ++ name) = .raised m →
      (destroy_micro_terminal env name).1 = (false, destroyUnexpectedMsg m)) ∧
    (∀ env name command m, pyGet env.tmuxPath ≠ none →
      env.sendKeys ((MICRO_TERM_TAG ++ name) ++ ":0.0") command = .raised m →
      (send_to_micro_terminal env name command).1 =
        (false, sendUnexpectedMsg m)) ∧
    (∀ env name vtp m, pyGet env.tmuxPath ≠ none → pyIsEmpty vtp = false →
      (_session_exists env (MICRO_TERM_TAG ++ name)).1 = true →
      (∀ args, env.popen args = .raised m) →
      (attach_micro_terminal env name vtp).1 = (false, attachFailedMsg m)) ∧
    (∀ env sn m, env.hasSession sn = .raised m →
      (_session_exists env sn).1 = false) ∧
    (∀ env m, env.listSessions = .raised m →
      (list_micro_terminals env).1 = []) := by
  refine ⟨?_, ?_, ?_, ?_, ?_, ?_⟩
  · intro env name vm_type vm_target cmdline m htm hvt hex hb hn
    cases hp : pyGet env.tmuxPath with
    | none => exact absurd hp htm
    | some t =>
      have hvt2 : vm_type ∈ VM_TYPES := by simpa using hvt
      simp [create_micro_terminal, hp, hvt2, hex, hb, hn]
  · intro env name m htm hk
    cases hp : pyGet env.tmuxPath with
    | none => exact absurd hp htm
    | some t => simp [destroy_micro_terminal, hp, hk]
  · intro env name command m htm hs
    cases hp : pyGet env.tmuxPath with
    | none => exact absurd hp htm
    | some t => simp [send_to_micro_terminal, hp, hs]
  · intro env name vtp m htm hv hex hpo
    cases hp : pyGet env.tmuxPath with
    | none => exact absurd hp htm
    | some t => simp [attach_micro_terminal, hp, hv, hex, hpo]
  · intro env sn m h
    simp [_session_exists, h]
  · intro env m h
    cases hp : pyGet env.tmuxPath with
    | none => simp [list_micro_terminals, hp]
    | some t => simp [list_micro_terminals, hp, h]

/-- Closed instance of the C7 theorem at oracles whose invocations raise. -/
theorem operations_catch_faults_witness :
    (create_micro_terminal raisedEnv "n" "local" none).1 =
      (false, none, createUnexpectedMsg "boom") ∧
    (destroy_micro_terminal raisedEnv "n").1 =
      (false, destroyUnexpectedMsg "boom") ∧
    (send_to_micro_terminal raisedEnv "n" "ls").1 =
      (false, sendUnexpectedMsg "boom") ∧
    (attach_micro_terminal attachRaisedEnv "n" "xterm").1 =
      (false, attachFailedMsg "boom") ∧
    (_session_exists raisedEnv "s").1 = false ∧
    (list_micro_terminals raisedEnv).1 = [] :=
  ⟨operations_catch_faults.1 raisedEnv "n" "local" none "/bin/bash" "boom"
     (by decide) (by decide) (by decide) rfl rfl,
   operations_catch_faults.2.1 raisedEnv "n" "boom" (by decide) rfl,
   operations_catch_faults.2.2.1 raisedEnv "n" "ls" "boom" (by decide) rfl,
   operations_catch_faults.2.2.2.1 attachRaisedEnv "n" "xterm" "boom"
     (by decide) (by decide) (by decide) (fun _ => rfl),
   operations_catch_faults.2.2.2.2.1 raisedEnv "s" "boom" rfl,
   operations_catch_faults.2.2.2.2.2 raisedEnv "boom" rfl⟩

/-- Any error message produced by the start-command builder is distinct
from the AlreadyExists message (their first characters differ). -/
theorem build_error_ne_already (env : Env) (vm_type : String)
    (vm_target : Option String) (msg name : String)
    (h : build_start_cmd env vm_type vm_target = .error msg) :
    msg ≠ alreadyExistsMsg name := by
  have hM := alreadyExistsMsg_head name
  unfold build_start_cmd at h
  by_cases h1 : vm_type = "docker"
  · rw [if_pos h1] at h
    cases hg : pyGet vm_target with
    | none =>
      rw [hg] at h
      have hmsg : dockerTargetMsg = msg := by simpa using h
      rw [← hmsg]
      exact ne_of_head_ne _ _ 'd' 'M' rfl hM (by decide)
    | some t =>
      rw [hg] at h
      cases hd : pyGet env.dockerPath with
      | none =>
        rw [hd] at h
        have hmsg : dockerMissingMsg = msg := by simpa using h
        rw [← hmsg]
        exact ne_of_head_ne _ _ 'D' 'M' rfl hM (by decide)
      | some d => rw [hd] at h; simp at h
  · rw [if_neg h1] at h
    by_cases h2 : vm_type = "ssh"
    · rw [if_pos h2] at h
      cases hg : pyGet vm_target with
      | none =>
        rw [hg] at h
        have hmsg : sshTargetMsg = msg := by simpa using h
        rw [← hmsg]
        exact ne_of_head_ne _ _ 's' 'M' rfl hM (by decide)
      | some t =>
        rw [hg] at h
        cases hd : pyGet env.sshPath with
        | none =>
          rw [hd] at h
          have hmsg : sshMissingMsg = msg := by simpa using h
          rw [← hmsg]
          exact ne_of_head_ne _ _ 'S' 'M' rfl hM (by decide)
        | some d => rw [hd] at h; simp at h
    · rw [if_neg h2] at h
      simp at h

/-- C9: create returns the namespaced identifier in the second slot of its
triple on success and on the AlreadyExists failure, and None there on
every other failure path; whenever the slot is non-None it is exactly the
computed identifier. -/
theorem create_identifier_slot :
    ∀ env name vm_type vm_target,
      ((create_micro_terminal env name vm_type vm_target).1.1 = true →
        (create_micro_terminal env name vm_type vm_target).1.2.1 =
          some (MICRO_TERM_TAG ++ name)) ∧
      ((create_micro_terminal env name vm_type vm_target).1.1 = false →
        ((create_micro_terminal env name vm_type vm_target).1.2.1 ≠ none ↔
          (create_micro_terminal env name vm_type vm_target).1.2.2 =
            alreadyExistsMsg name)) ∧
      ((create_micro_terminal env name vm_type vm_target).1.2.1 ≠ none →
        (create_micro_terminal env name vm_type vm_target).1.2.1 =
          some (MICRO_TERM_TAG ++ name)) := by
  intro env name vm_type vm_target
  have hM := alreadyExistsMsg_head name
  cases hp : pyGet env.tmuxPath with
  | none =>
    simp [create_micro_terminal, hp]
    exact ne_of_head_ne _ _ 't' 'M' rfl hM (by decide)
  | some t =>
    by_cases hvt : vm_type ∈ VM_TYPES
    · by_cases hex : (_session_exists env (MICRO_TERM_TAG ++ name)).1 = true
      · simp [create_micro_terminal, hp, hvt, hex]
      · have hex2 : (_session_exists env (MICRO_TERM_TAG ++ name)).1 = false := by
          simpa using hex
        cases hb : build_start_cmd env vm_type vm_target with
        | error msg =>
          simp [create_micro_terminal, hp, hvt, hex2, hb]
          exact fun hmsg => absurd hmsg (build_error_ne_already _ _ _ _ _ hb)
        | ok cmdline =>
          cases hn : env.newSession (MICRO_TERM_TAG ++ name) cmdline with
          | completed rc out stderr =>
            by_cases hrc : (rc == 0) = true
            · simp [create_micro_terminal, hp, hvt, hex2, hb, hn, hrc]
            · have hrc2 : (rc == 0) = false := by simpa using hrc
              simp [create_micro_terminal, hp, hvt, hex2, hb, hn, hrc2]
              exact ne_of_head_ne _ _ 'F' 'M' (append_head _ _ _ rfl) hM (by decide)
          | raised m =>
            simp [create_micro_terminal, hp, hvt, hex2, hb, hn]
            exact ne_of_head_ne _ _ 'U' 'M' (append_head _ _ _ rfl) hM (by decide)
    · have hvt2 : vm_type ∉ VM_TYPES := hvt
      simp [create_micro_terminal, hp, hvt2]
      exact ne_of_head_ne _ _ 'U' 'M'
        (append_head _ _ _ (append_head _ _ _ (append_head _ _ _ (append_head _ _ _ rfl))))
        hM (by decide)

/-- Closed instance of the C9 theorem on the success and AlreadyExists
paths of the modelled server. -/
theorem create_identifier_slot_witness :
    ((create_micro_terminal (serverEnv []) "w" "local" none).1.1 = true →
      (create_micro_terminal (serverEnv []) "w" "local" none).1.2.1 =
        some (MICRO_TERM_TAG ++ "w")) ∧
    ((create_micro_terminal (serverEnv []) "w" "local" none).1.2.1 ≠ none →
      (create_micro_terminal (serverEnv []) "w" "local" none).1.2.1 =
        some (MICRO_TERM_TAG ++ "w")) :=
  ⟨(create_identifier_slot (serverEnv []) "w" "local" none).1,
   (create_identifier_slot (serverEnv []) "w" "local" none).2.2⟩

/-- A string with a nonempty whitespace-split is nonempty. -/
theorem pySplitWS_ne_nil (s : String) (h : pySplitWS s ≠ []) :
    pyIsEmpty s = false := by
  cases hd : s.data with
  | nil =>
    exfalso
    apply h
    simp [pySplitWS, hd, splitWSAux]
  | cons c cs => simp [pyIsEmpty, hd]

/-- C8: an interruption (or end of input) at the top-level prompt ends the
loop as quit; the same interruption at the destroy confirmation or at the
post-create attach question cancels only that action, and the loop goes on
to process the remaining input exactly as it would have. -/
theorem interrupt_top_quits_nested_cancels :
    (∀ env vtp evs, run_micro_terminal_manager env vtp (none :: evs) =
      (.quit, [.listCall])) ∧
    (∀ env vtp, run_micro_terminal_manager env vtp [] = (.quit, [.listCall])) ∧
    (∀ env vtp raw name rest, pySplitWS (pyStrip raw) = ["destroy", name] →
      run_micro_terminal_manager env vtp (some raw :: none :: rest) =
        ((run_micro_terminal_manager env vtp rest).1,
         .listCall :: (run_micro_terminal_manager env vtp rest).2)) ∧
    (∀ env vtp raw name rest, pySplitWS (pyStrip raw) = ["new", name] →
      (create_micro_terminal env name "local" none).1.1 = true →
      run_micro_terminal_manager env vtp (some raw :: none :: rest) =
        ((run_micro_terminal_manager env vtp rest).1,
         .listCall :: .createCall name "local" none ::
           (run_micro_terminal_manager env vtp rest).2)) := by
  refine ⟨fun env vtp evs => rfl, fun env vtp => rfl, ?_, ?_⟩
  · intro env vtp raw name rest h
    have hne : pyIsEmpty (pyStrip raw) = false :=
      pySplitWS_ne_nil _ (by rw [h]; simp)
    have hcmd : pyLower "destroy" = "destroy" := rfl
    simp only [run_micro_terminal_manager, runLoopAux, hne, h, Bool.false_eq_true,
      if_false, List.headD_cons, hcmd, List.length_cons, List.length_nil,
      List.getD_cons_succ, List.getD_cons_zero]
    norm_num
    simp
  · intro env vtp raw name rest h hc
    have hne : pyIsEmpty (pyStrip raw) = false :=
      pySplitWS_ne_nil _ (by rw [h]; simp)
    have hcmd : pyLower "new" = "new" := rfl
    simp only [run_micro_terminal_manager, runLoopAux, hne, h, Bool.false_eq_true,
      if_false, List.headD_cons, hcmd, List.length_cons, List.length_nil,
      List.getD_cons_succ, List.getD_cons_zero]
    norm_num [hc]
    simp

/-- Closed instance of the C8 theorem on concrete input streams. -/
theorem interrupt_top_quits_nested_cancels_witness :
    run_micro_terminal_manager (serverEnv []) "xterm" (none :: [some "back"]) =
      (.quit, [.listCall]) ∧
    run_micro_terminal_manager (serverEnv []) "xterm" [] = (.quit, [.listCall]) ∧
    run_micro_terminal_manager (serverEnv []) "xterm"
        [some "destroy x", none, some "back"] =
      ((run_micro_terminal_manager (serverEnv []) "xterm" [some "back"]).1,
       .listCall :: (run_micro_terminal_manager (serverEnv []) "xterm" [some "back"]).2) ∧
    run_micro_terminal_manager (serverEnv []) "xterm"
        [some "new n", none, some "back"] =
      ((run_micro_terminal_manager (serverEnv []) "xterm" [some "back"]).1,
       .listCall :: .createCall "n" "local" none ::
         (run_micro_terminal_manager (serverEnv []) "xterm" [some "back"]).2) :=
  ⟨interrupt_top_quits_nested_cancels.1 (serverEnv []) "xterm" [some "back"],
   interrupt_top_quits_nested_cancels.2.1 (serverEnv []) "xterm",
   interrupt_top_quits_nested_cancels.2.2.1 (serverEnv []) "xterm" "destroy x" "x"
     [some "back"] (by decide),
   interrupt_top_quits_nested_cancels.2.2.2 (serverEnv []) "xterm" "new n" "n"
     [some "back"] (by decide) (by decide)⟩

/-- C10: a send command line is tokenized on whitespace and the command
tokens are rejoined with single spaces before the controller is invoked,
so runs of whitespace inside the command text collapse to one space. -/
theorem send_rejoins_tokens :
    ∀ env vtp raw t name c cs rest,
      pySplitWS (pyStrip raw) = t :: name :: c :: cs →
      pyLower t = "send" →
      run_micro_terminal_manager env vtp (some raw :: rest) =
        ((run_micro_terminal_manager env vtp rest).1,
         .listCall :: .sendCall name (pyJoin " " (c :: cs)) ::
           (run_micro_terminal_manager env vtp rest).2) := by
  intro env vtp raw t name c cs rest h ht
  have hne : pyIsEmpty (pyStrip raw) = false :=
    pySplitWS_ne_nil _ (by rw [h]; simp)
  simp only [run_micro_terminal_manager, runLoopAux, hne, h, Bool.false_eq_true,
    if_false, List.headD_cons, ht, List.length_cons,
    List.getD_cons_succ, List.getD_cons_zero, List.drop_succ_cons, List.drop_zero]
  norm_num
  simp

/-- Closed instance of the C10 theorem: doubled and tabbed whitespace in
the command text collapses to single spaces, so the command sent is not
the verbatim tail of the input line. -/
theorem send_rejoins_tokens_witness :
    run_micro_terminal_manager (serverEnv []) "xterm" [some "send x echo \t  hi"] =
      (.quit, [.listCall, .sendCall "x" "echo hi", .listCall]) ∧
    pyJoin " " ["echo", "hi"] ≠ "echo \t  hi" := by
  constructor
  · have h := send_rejoins_tokens (serverEnv []) "xterm" "send x echo \t  hi"
      "send" "x" "echo" ["hi"] [] (by decide) (by decide)
    rw [h]
    decide
  · decide
